import Mathlib

/-!
Verification development for the AlertBotTrading repository: a shallow
embedding of its alert dispatch and price-polling engine
(`price_scraper.py`, `webhook.py`, `telegram_bot.py`, `config.py`,
`models.py`) together with theorems settling the specification claims.

Modelling conventions:
* Python floats become rationals (the claims only compare prices).
* An HTTP interaction is abstracted as an `HttpOutcome`: either a
  transport failure / raised exception, or a response carrying the status
  code and the already-parsed part of the body the code inspects.
* Database rows become Lean structures; the poll cycle and the webhook
  handler become pure functions from the request/environment to the new
  rows and the responses.
-/

namespace AlertBot

/-- Outcome of one outbound HTTP call: a transport failure (the Python
`requests` call raised), or a response with a status code and the parsed
body. -/
inductive HttpOutcome (α : Type) where
  | exn (detail : String)
  | response (status : Nat) (body : α)
deriving Repr, DecidableEq

/-- Parsed price payload, as built by `get_price_data` /
`get_price_from_alternative_source` in `price_scraper.py` (the
`timestamp` field is omitted: no claim inspects it). -/
structure PriceData where
  symbol : String
  price : ℚ
deriving Repr, DecidableEq

/-- `price_scraper.get_price_from_alternative_source`: the keyless Yahoo
Finance path.  The body abstraction is `Option ℚ`: `some p` when the
nested `chart.result[0].meta.regularMarketPrice` field is present and
parses, `none` when the expected fields are missing. -/
def get_price_from_alternative_source (symbol : String)
    (resp : HttpOutcome (Option ℚ)) : Option PriceData :=
  match resp with
  | .exn _ => none
  | .response status body =>
    if status = 200 then
      match body with
      | some p => some { symbol := symbol, price := p }
      | none => none
    else none

/-- `price_scraper.get_price_data`: when the Alpha Vantage API key is
absent (empty string, Python falsy), fall back to the alternative source;
otherwise query the primary source, whose body abstraction is `some p`
when `"Global Quote"."05. price"` is present and parses.  Note the code
only consults the alternative source on a missing key: a failing primary
call returns `None` directly. -/
def get_price_data (symbol : String) (api_key : String)
    (primaryResp : HttpOutcome (Option ℚ)) (altResp : HttpOutcome (Option ℚ)) :
    Option PriceData :=
  if api_key = "" then
    get_price_from_alternative_source symbol altResp
  else
    match primaryResp with
    | .exn _ => none
    | .response status body =>
      if status = 200 then
        match body with
        | some p => some { symbol := symbol, price := p }
        | none => none
      else none

/-- The primary call failed: transport failure, non-200 status, or the
expected field missing from the body. -/
def primary_fails : HttpOutcome (Option ℚ) → Prop
  | .exn _ => True
  | .response status body => status ≠ 200 ∨ body = none

instance : DecidablePred primary_fails := by
  intro r
  cases r with
  | exn d => exact isTrue trivial
  | response s b => exact inferInstanceAs (Decidable (s ≠ 200 ∨ b = none))

/-- Result of `telegram_bot.send_telegram_message`: a tagged value, never
an exception. -/
structure TelegramResult where
  success : Bool
  error : Option String
deriving Repr, DecidableEq

/-- `telegram_bot.send_telegram_message`: one HTTP POST to the Telegram
API; returns `success = true` exactly on a 200 status, and otherwise a
failure result carrying the error detail.  `resp` is the outcome of the
POST; the body abstraction is the response text. -/
def send_telegram_message (bot_token chat_id message : String)
    (resp : HttpOutcome String) : TelegramResult :=
  match resp with
  | .response status text =>
    if status = 200 then
      { success := true, error := none }
    else
      { success := false,
        error := some ("Failed to send message to Telegram. Status code: "
          ++ toString status ++ ", Response: " ++ text) }
  | .exn detail =>
    { success := false,
      error := some ("Exception sending Telegram message: " ++ detail) }

/-- The gateway call outcome counts as success for the code: status 200. -/
def gateway_ok : HttpOutcome String → Bool
  | .response status _ => status == 200
  | .exn _ => false

theorem send_success_eq_gateway_ok (bt cid msg : String) (r : HttpOutcome String) :
    (send_telegram_message bt cid msg r).success = gateway_ok r := by
  cases r with
  | exn d => rfl
  | response s t =>
    simp only [send_telegram_message, gateway_ok]
    split <;> simp_all

/-- The trigger evaluation of `check_and_trigger_alerts`
(`price_scraper.py` lines 139-144): `above` compares strictly above the
target, `below` strictly below, anything else never triggers. -/
def alert_triggered (alert_type : String) (current_price target_price : ℚ) : Bool :=
  if alert_type == "above" && decide (current_price > target_price) then
    true
  else if alert_type == "below" && decide (current_price < target_price) then
    true
  else
    false

theorem alert_triggered_iff (t : String) (p tp : ℚ) :
    alert_triggered t p tp = true ↔
      ((t = "above" ∧ tp < p) ∨ (t = "below" ∧ p < tp)) := by
  simp only [alert_triggered]
  split <;> rename_i h
  · simp only [Bool.and_eq_true, beq_iff_eq, decide_eq_true_eq] at h
    simp [h]
  · split <;> rename_i h2
    · simp only [Bool.and_eq_true, beq_iff_eq, decide_eq_true_eq] at h2
      simp [h2]
    · simp only [Bool.and_eq_true, beq_iff_eq, decide_eq_true_eq] at h h2
      constructor
      · intro hc; exact absurd hc (by simp)
      · rintro (⟨ht, hp⟩ | ⟨ht, hp⟩)
        · exact absurd ⟨ht, hp⟩ h
        · exact absurd ⟨ht, hp⟩ h2

/-- `models.TelegramConfig`: credential, chat identifier, active flag. -/
structure TelegramConfig where
  id : Nat
  bot_token : String
  chat_id : String
  is_active : Bool
deriving Repr, DecidableEq

/-- `models.TradingViewAlert`: a webhook alert configuration.  The
referenced `TelegramConfig` row is inlined (`tconfig`). -/
structure TradingViewAlert where
  id : Nat
  name : String
  webhook_key : String
  message_template : String
  is_active : Bool
  tconfig : TelegramConfig
deriving Repr, DecidableEq

/-- The default webhook message template of `models.TradingViewAlert`. -/
def default_tv_template : String :=
  "TradingView Alert: \x7b\x7bstrategy\x7d\x7d - \x7b\x7bticker\x7d\x7d - \x7b\x7bclose\x7d\x7d"

/-- `models.PriceAlert`: a price-based alert.  The referenced
`TelegramConfig` credential and chat are inlined; timestamps are
abstract naturals. -/
structure PriceAlert where
  id : Nat
  name : String
  symbol : String
  alert_type : String
  target_price : ℚ
  message_template : String
  is_active : Bool
  is_one_time : Bool
  is_triggered : Bool
  last_triggered_at : Option Nat
  bot_token : String
  chat_id : String
deriving Repr, DecidableEq

/-- `models.NotificationLog`: one append-only audit row.  `payload` keeps
an abstract serialization of the dispatched payload. -/
structure NotificationLog where
  alert_id : Option Nat
  price_alert_id : Option Nat
  payload : String
  message_sent : String
  status : String
  error_message : Option String
deriving Repr, DecidableEq

/-! ### Template rendering (`string.Template.safe_substitute`)

`webhook.receive_alert` renders with Python's `string.Template`, whose
placeholder syntax is `$$` (escaped dollar), `$identifier` and
`$\x7bidentifier\x7d`; `safe_substitute` replaces known placeholders, leaves
unknown ones as literal text, and leaves a lone or ill-formed `$` in
place.  Text containing no `$` at all is returned unchanged.  The fuel
argument only drives the recursion; every step consumes at least one
character, so fuel equal to the input length suffices and the wrapper
supplies it. -/

/-- First character of a Python `string.Template` identifier
(`[_a-zA-Z]`). -/
def isIdentStart (c : Char) : Bool := c.isAlpha || c == '_'

/-- Continuation character of a Python `string.Template` identifier. -/
def isIdentChar (c : Char) : Bool := c.isAlphanum || c == '_'

/-- Split a longest identifier-character run off the front. -/
def splitIdent : List Char → List Char × List Char
  | [] => ([], [])
  | c :: cs =>
    if isIdentChar c then
      let p := splitIdent cs
      (c :: p.1, p.2)
    else ([], c :: cs)

/-- Look up a key in the payload map (first binding wins). -/
def lookupVal (vals : List (String × String)) (k : String) : Option String :=
  (vals.find? (fun p => p.1 == k)).map (fun p => p.2)

/-- Scanner of `safe_substitute` (see the section comment). -/
def safeSubstAux (vals : List (String × String)) : Nat → List Char → List Char
  | 0, l => l
  | _ + 1, [] => []
  | fuel + 1, c :: cs =>
    if c = '$' then
      match cs with
      | [] => ['$']
      | d :: cs2 =>
        if d = '$' then
          '$' :: safeSubstAux vals fuel cs2
        else if d = '\x7b' then
          let p := splitIdent cs2
          match p.2 with
          | e :: cs3 =>
            if e = '\x7d' && !p.1.isEmpty && isIdentStart (p.1.headD 'a') then
              match lookupVal vals (String.mk p.1) with
              | some v => v.data ++ safeSubstAux vals fuel cs3
              | none => '$' :: '\x7b' :: (p.1 ++ '\x7d' :: safeSubstAux vals fuel cs3)
            else
              '$' :: safeSubstAux vals fuel cs
          | [] => '$' :: safeSubstAux vals fuel cs
        else if isIdentStart d then
          let q := splitIdent (d :: cs2)
          match lookupVal vals (String.mk q.1) with
          | some v => v.data ++ safeSubstAux vals fuel q.2
          | none => '$' :: (q.1 ++ safeSubstAux vals fuel q.2)
        else
          '$' :: safeSubstAux vals fuel cs
    else
      c :: safeSubstAux vals fuel cs

/-- `string.Template(tmpl).safe_substitute(vals)`. -/
def safe_substitute (tmpl : String) (vals : List (String × String)) : String :=
  String.mk (safeSubstAux vals tmpl.data.length tmpl.data)

/-- Abstract serialization standing for `json.dumps(payload)`. -/
def serializeMap : List (String × String) → String
  | [] => ""
  | (k, v) :: rest => k ++ "=" ++ v ++ ";" ++ serializeMap rest

/-! ### Webhook dispatcher (`webhook.receive_alert`) -/

/-- The config lookup of `webhook.receive_alert`:
`TradingViewAlert.query.filter_by(webhook_key=key, is_active=True).first()`. -/
def find_alert_config (configs : List TradingViewAlert) (key : String) :
    Option TradingViewAlert :=
  configs.find? (fun c => c.webhook_key == key && c.is_active)

/-- Response of the webhook endpoint: HTTP status plus the JSON `status`
tag. -/
structure WebhookResponse where
  httpStatus : Nat
  status : String
deriving Repr, DecidableEq

/-- `webhook.receive_alert` for a request whose body parsed to the flat
map `payload`.  `configs` is the alert-config table; `sendOutcome` is the
outcome of the one Telegram POST this request would make.  Returns the
HTTP response, the Notification Log rows written, and the messages sent
to the gateway.  The `except` fallbacks of the handler are unreachable
here because the embedded rendering and gateway are total. -/
def receive_alert (configs : List TradingViewAlert)
    (sendOutcome : HttpOutcome String) (webhook_key : String)
    (payload : List (String × String)) :
    WebhookResponse × List NotificationLog × List String :=
  match find_alert_config configs webhook_key with
  | none => ({ httpStatus := 404, status := "error" }, [], [])
  | some cfg =>
    if !cfg.tconfig.is_active then
      ({ httpStatus := 400, status := "error" }, [], [])
    else
      let message := safe_substitute cfg.message_template payload
      let tr := send_telegram_message cfg.tconfig.bot_token cfg.tconfig.chat_id
        message sendOutcome
      let log : NotificationLog :=
        { alert_id := some cfg.id
          price_alert_id := none
          payload := serializeMap payload
          message_sent := message
          status := if tr.success then "success" else "failed"
          error_message := tr.error }
      if tr.success then
        ({ httpStatus := 200, status := "success" }, [log], [message])
      else
        ({ httpStatus := 500, status := "error" }, [log], [message])

/-- The `regenerate_webhook` action of `config.alerts_config`: look up the
alert by id and overwrite its key with a freshly generated one
(`generate_webhook_key`); the randomness is abstracted by passing the new
key in. -/
def regenerate_webhook (configs : List TradingViewAlert) (alert_id : Nat)
    (newKey : String) : List TradingViewAlert :=
  configs.map (fun c => if c.id == alert_id then { c with webhook_key := newKey } else c)

/-! ### Price alert poller (`price_scraper.check_and_trigger_alerts`)

One poll cycle is a pure function of the alert table and an environment
of oracles: `priceOf` is the combined outcome of `get_price_data` for a
symbol during this cycle (`none` = both sources failed, the
`DataUnavailable` case); `sendOutcome` is the outcome of the Telegram
POST an alert would make; `faults` marks the alerts at which the
per-alert database write raises (`db.session.add` / `db.session.commit`
or a comparable per-alert fault) — the one place in the loop body that
can raise, since the price fetch and the gateway both swallow their own
exceptions; `now` abstracts `datetime.utcnow()`. -/

/-- Oracle environment for one poll cycle. -/
structure CycleEnv where
  priceOf : String → Option ℚ
  sendOutcome : Nat → HttpOutcome String
  faults : Nat → Bool
  now : Nat

/-- The per-alert message formatting of `check_and_trigger_alerts`
(`price_scraper.py` lines 150-153); the Python `str` rendering of floats
is abstracted by the rational `toString`. -/
def price_message (a : PriceAlert) (p : ℚ) : String :=
  ((((a.message_template.replace "\x7b\x7bsymbol\x7d\x7d" a.symbol).replace
      "\x7b\x7bcurrent_price\x7d\x7d" (toString p)).replace
      "\x7b\x7btarget_price\x7d\x7d" (toString a.target_price)).replace
      "\x7b\x7balert_type\x7d\x7d" a.alert_type)

/-- The Notification Log row written for a triggered price alert
(`price_scraper.py` lines 163-169). -/
def price_log (env : CycleEnv) (a : PriceAlert) (p : ℚ) : NotificationLog :=
  let tr := send_telegram_message a.bot_token a.chat_id (price_message a p)
    (env.sendOutcome a.id)
  { alert_id := none
    price_alert_id := some a.id
    payload := a.symbol ++ ":" ++ toString p
    message_sent := price_message a p
    status := if tr.success then "success" else "failed"
    error_message := tr.error }

/-- The state update applied to a triggered alert (`price_scraper.py`
lines 173-175): one-time alerts are marked triggered and stamped. -/
def fired_update (env : CycleEnv) (a : PriceAlert) : PriceAlert :=
  if a.is_one_time then
    { a with is_triggered := true, last_triggered_at := some env.now }
  else
    a

/-- Outcome of the loop body for one alert: either it completes, with the
updated row, the log rows written and the messages sent; or the per-alert
database write raised after the message had already been sent, losing the
row update and the log. -/
inductive StepOutcome where
  | ok (alert : PriceAlert) (logs : List NotificationLog) (sends : List String)
  | fault (alert : PriceAlert) (sends : List String)
deriving Repr, DecidableEq

/-- The loop body of `check_and_trigger_alerts` for one active alert:
skip if one-time and already triggered; skip if the price is unavailable;
evaluate the condition; on trigger, send, then log and update — unless
the per-alert write faults. -/
def process_alert (env : CycleEnv) (a : PriceAlert) : StepOutcome :=
  if a.is_one_time && a.is_triggered then
    .ok a [] []
  else
    match env.priceOf a.symbol with
    | none => .ok a [] []
    | some p =>
      if alert_triggered a.alert_type p a.target_price then
        if env.faults a.id then
          .fault a [price_message a p]
        else
          .ok (fired_update env a) [price_log env a p] [price_message a p]
      else
        .ok a [] []

/-- One poll cycle over the alert table.  Only rows with
`is_active = true` are selected (the `filter_by` of the query); a fault
at one alert propagates to the single `try`/`except` wrapping the whole
loop, so the remaining rows are left unprocessed — but the cycle itself
returns (the exception is caught and logged).  Returns the updated table,
the log rows written and the messages sent. -/
def run_cycle (env : CycleEnv) :
    List PriceAlert → List PriceAlert × List NotificationLog × List String
  | [] => ([], [], [])
  | a :: rest =>
    if a.is_active then
      match process_alert env a with
      | .fault a' sends => (a' :: rest, [], sends)
      | .ok a' logs sends =>
        let r := run_cycle env rest
        (a' :: r.1, logs ++ r.2.1, sends ++ r.2.2)
    else
      let r := run_cycle env rest
      (a :: r.1, r.2.1, r.2.2)

/-- A sequence of poll cycles, each with its own oracle environment,
threading the alert table and accumulating logs and sends. -/
def run_cycles : List CycleEnv → List PriceAlert →
    List PriceAlert × List NotificationLog × List String
  | [], db => (db, [], [])
  | env :: envs, db =>
    let r := run_cycle env db
    let r2 := run_cycles envs r.1
    (r2.1, r.2.1 ++ r2.2.1, r.2.2 ++ r2.2.2)

/-- The `reset_triggered` branch of the `edit` action in
`config.price_alerts` (`config.py` lines 353-355): clears the triggered
flag and the last-triggered timestamp. -/
def reset_alert (a : PriceAlert) : PriceAlert :=
  { a with is_triggered := false, last_triggered_at := none }

/-! ### Helper lemmas shared by the claim theorems -/

/-- Shape of the loop body once the skip guard is passed and the price is
available. -/
theorem process_alert_eq (env : CycleEnv) (a : PriceAlert) (p : ℚ)
    (hskip : (a.is_one_time && a.is_triggered) = false)
    (hp : env.priceOf a.symbol = some p) :
    process_alert env a =
      if alert_triggered a.alert_type p a.target_price then
        (if env.faults a.id then .fault a [price_message a p]
         else .ok (fired_update env a) [price_log env a p] [price_message a p])
      else .ok a [] [] := by
  simp only [process_alert, hskip, Bool.false_eq_true, if_false, hp]

/-- A one-time alert that has fired is skipped by the loop body. -/
theorem process_alert_skips_triggered (env : CycleEnv) (a : PriceAlert)
    (h1 : a.is_one_time = true) (h2 : a.is_triggered = true) :
    process_alert env a = .ok a [] [] := by
  simp only [process_alert, h1, h2, Bool.and_self, if_true]

/-- A skipped or no-op alert contributes nothing to the cycle over a
singleton table. -/
theorem run_cycle_singleton_noop (env : CycleEnv) (a : PriceAlert)
    (h : process_alert env a = .ok a [] []) :
    run_cycle env [a] = ([a], [], []) := by
  simp only [run_cycle, h]
  split <;> rfl

/-! ### Claim C1 -/

/-- Claim C1: for an active price alert evaluated in a poll cycle with an
available price (skip guard passed, price fetched, per-alert write not
faulting), the alert fires — producing exactly one log row and one sent
message — iff `alert_type = "above"` and the price is strictly greater
than the target, or `alert_type = "below"` and the price is strictly
less; at price equal to the target it never fires. -/
theorem price_alert_trigger_condition (env : CycleEnv) (a : PriceAlert) (p : ℚ)
    (hskip : (a.is_one_time && a.is_triggered) = false)
    (hp : env.priceOf a.symbol = some p)
    (hf : env.faults a.id = false) :
    ((∃ log msg, process_alert env a = .ok (fired_update env a) [log] [msg]) ↔
      ((a.alert_type = "above" ∧ a.target_price < p) ∨
       (a.alert_type = "below" ∧ p < a.target_price)))
    ∧ (p = a.target_price → process_alert env a = .ok a [] []) := by
  have he := process_alert_eq env a p hskip hp
  rw [hf] at he
  simp only [Bool.false_eq_true, if_false] at he
  constructor
  · rw [← alert_triggered_iff]
    constructor
    · rintro ⟨log, msg, hEq⟩
      by_contra hc
      rw [Bool.not_eq_true] at hc
      rw [he, hc] at hEq
      simp at hEq
    · intro hc
      rw [he, if_pos hc]
      exact ⟨price_log env a p, price_message a p, rfl⟩
  · intro hpe
    have hfalse : alert_triggered a.alert_type p a.target_price = false := by
      rw [Bool.eq_false_iff]
      rw [Ne, alert_triggered_iff]
      rintro (⟨_, hlt⟩ | ⟨_, hlt⟩) <;> rw [hpe] at hlt <;> exact lt_irrefl _ hlt
    rw [he, hfalse]
    simp

/-- Sample environment: price 101 for AAPL, gateway reachable and
returning 200, no per-alert faults. -/
def envOk : CycleEnv :=
  { priceOf := fun s => if s = "AAPL" then some 101 else none
    sendOutcome := fun _ => .response 200 "ok"
    faults := fun _ => false
    now := 5 }

/-- Sample active above-100 alert on AAPL, one-time, untriggered. -/
def aaplAlert : PriceAlert :=
  { id := 3
    name := "aapl-above"
    symbol := "AAPL"
    alert_type := "above"
    target_price := 100
    message_template := "Alert \x7b\x7bsymbol\x7d\x7d at \x7b\x7bcurrent_price\x7d\x7d"
    is_active := true
    is_one_time := true
    is_triggered := false
    last_triggered_at := none
    bot_token := "tok"
    chat_id := "chat" }

theorem price_alert_trigger_condition_witness :
    ((∃ log msg, process_alert envOk aaplAlert = .ok (fired_update envOk aaplAlert) [log] [msg]) ↔
      ((aaplAlert.alert_type = "above" ∧ aaplAlert.target_price < 101) ∨
       (aaplAlert.alert_type = "below" ∧ 101 < aaplAlert.target_price)))
    ∧ ((101 : ℚ) = aaplAlert.target_price → process_alert envOk aaplAlert = .ok aaplAlert [] []) :=
  price_alert_trigger_condition envOk aaplAlert 101 (by decide) (by decide) (by decide)

/-! ### Claim C5 -/

/-- Claim C5 counterexample: with an API key configured, the primary call
failing with a non-200 status yields the unavailable result directly even
though the secondary source would have returned a price — the code only
falls back when the key is absent, contradicting the claim that any
primary failure falls back and that only failure of both paths yields
unavailable. -/
theorem get_price_data_no_fallback_counterexample :
    get_price_data "AAPL" "demokey" (.response 500 none) (.response 200 (some 101)) = none
    ∧ get_price_from_alternative_source "AAPL" (.response 200 (some 101)) =
        some { symbol := "AAPL", price := 101 } := by
  constructor <;> rfl

/-- Claim C5 (amended): `get_price_data` falls back to the secondary
keyless source exactly when the API key is absent; when a key is present,
the outcome is decided by the primary call alone — any primary failure
(transport error, non-200, missing field) yields the unavailable result
without consulting the secondary, and a successful primary call yields
its price. -/
theorem get_price_data_fallback_spec (symbol key : String)
    (pr ar : HttpOutcome (Option ℚ)) :
    (key = "" → get_price_data symbol key pr ar = get_price_from_alternative_source symbol ar)
    ∧ (key ≠ "" → primary_fails pr → get_price_data symbol key pr ar = none)
    ∧ (key ≠ "" → ¬ primary_fails pr →
        ∃ p, pr = .response 200 (some p) ∧
          get_price_data symbol key pr ar = some { symbol := symbol, price := p }) := by
  refine ⟨?_, ?_, ?_⟩
  · intro h
    simp [get_price_data, h]
  · intro h hf
    simp only [get_price_data, if_neg h]
    cases pr with
    | exn d => rfl
    | response s b =>
      dsimp only
      rcases hf with hs | hb
      · rw [if_neg hs]
      · subst hb
        split <;> rfl
  · intro h hnf
    cases pr with
    | exn d => exact absurd trivial hnf
    | response s b =>
      simp only [primary_fails, not_or, not_not] at hnf
      obtain ⟨hs, hb⟩ := hnf
      obtain ⟨p, rfl⟩ := Option.ne_none_iff_exists'.mp hb
      subst hs
      refine ⟨p, rfl, ?_⟩
      simp [get_price_data, h]

theorem get_price_data_fallback_spec_witness :
    ("" ≠ "" → get_price_data "SPX" "" (.exn "down") (.response 200 (some 7)) = none)
    ∧ (("" : String) = "" →
        get_price_data "SPX" "" (.exn "down") (.response 200 (some 7)) =
          get_price_from_alternative_source "SPX" (.response 200 (some 7))) := by
  have h := get_price_data_fallback_spec "SPX" "" (.exn "down") (.response 200 (some 7))
  exact ⟨fun hk => h.2.1 hk trivial, fun hk => h.1 hk⟩

/-! ### Claim C7 -/

/-- Claim C7 counterexample: a 204 response from the messaging provider
is a 2xx status, yet the gateway reports failure — the code treats only
status 200 as success, not any 2xx. -/
theorem send_telegram_message_204_counterexample :
    (send_telegram_message "tok" "chat" "msg" (.response 204 "No Content")).success = false
    ∧ 200 ≤ 204 ∧ 204 < 300 := by
  refine ⟨rfl, by norm_num, by norm_num⟩

/-- Claim C7 (amended): the gateway never raises past its boundary — for
every input it returns a tagged result, where an HTTP 200 response from
the messaging provider is success, and any non-200 status or transport
failure is an error result carrying the error detail. -/
theorem send_telegram_message_tagged_result (bt cid msg : String)
    (r : HttpOutcome String) :
    ((send_telegram_message bt cid msg r).success = true ↔ ∃ body, r = .response 200 body)
    ∧ ((send_telegram_message bt cid msg r).success = false →
        ∃ d, (send_telegram_message bt cid msg r).error = some d) := by
  cases r with
  | exn d =>
    refine ⟨?_, fun _ => ⟨_, rfl⟩⟩
    simp [send_telegram_message]
  | response s t =>
    by_cases hs : s = 200
    · subst hs
      refine ⟨?_, ?_⟩
      · simp [send_telegram_message]
      · intro hfalse
        simp [send_telegram_message] at hfalse
    · refine ⟨?_, ?_⟩
      · simp only [send_telegram_message, if_neg hs]
        constructor
        · intro hfalse
          simp at hfalse
        · rintro ⟨body, hEq⟩
          cases hEq
          exact absurd rfl hs
      · intro _
        simp [send_telegram_message, hs]

theorem send_telegram_message_tagged_result_witness :
    ((send_telegram_message "tok" "chat" "msg" (.exn "timeout")).success = true ↔
      ∃ body, HttpOutcome.exn (α := String) "timeout" = .response 200 body)
    ∧ ∃ d, (send_telegram_message "tok" "chat" "msg" (.exn "timeout")).error = some d :=
  have h := send_telegram_message_tagged_result "tok" "chat" "msg" (.exn "timeout")
  ⟨h.1, h.2 rfl⟩

/-! ### Claim C2 -/

/-- Claim C2: a one-time price alert that has fired (`is_triggered`) is
skipped by every subsequent poll cycle — over any sequence of cycles it
is left unchanged and contributes no log row and no message — until the
explicit admin reset, which clears `is_triggered` and
`last_triggered_at`; a non-one-time alert is never consumed: whenever its
condition holds on an available price (and the write does not fault) it
fires and its row is returned unchanged, so it fires again on every such
cycle. -/
theorem one_time_and_repeat_semantics (a : PriceAlert) :
    (a.is_one_time = true → a.is_triggered = true →
      (∀ env : CycleEnv, process_alert env a = .ok a [] []) ∧
      ∀ envs : List CycleEnv, run_cycles envs [a] = ([a], [], []))
    ∧ ((reset_alert a).is_triggered = false ∧ (reset_alert a).last_triggered_at = none)
    ∧ (a.is_one_time = false →
        ∀ (env : CycleEnv) (p : ℚ), env.priceOf a.symbol = some p →
          alert_triggered a.alert_type p a.target_price = true →
          env.faults a.id = false →
          process_alert env a = .ok a [price_log env a p] [price_message a p]) := by
  refine ⟨?_, ⟨rfl, rfl⟩, ?_⟩
  · intro h1 h2
    refine ⟨fun env => process_alert_skips_triggered env a h1 h2, ?_⟩
    intro envs
    induction envs with
    | nil => rfl
    | cons env envs ih =>
      have hstep := run_cycle_singleton_noop env a
        (process_alert_skips_triggered env a h1 h2)
      simp only [run_cycles, hstep, ih, List.nil_append]
  · intro h1 env p hp hc hf
    have he := process_alert_eq env a p (by rw [h1, Bool.false_and]) hp
    rw [he, if_pos hc, hf]
    simp only [Bool.false_eq_true, if_false, fired_update, h1]

/-- Sample one-time alert that has already fired. -/
def firedAlert : PriceAlert :=
  { aaplAlert with is_triggered := true, last_triggered_at := some 1 }

theorem one_time_and_repeat_semantics_witness :
    run_cycles [envOk, envOk, envOk] [firedAlert] = ([firedAlert], [], [])
    ∧ process_alert envOk firedAlert = .ok firedAlert [] []
    ∧ (reset_alert firedAlert).is_triggered = false := by
  have h := one_time_and_repeat_semantics firedAlert
  exact ⟨(h.1 rfl rfl).2 [envOk, envOk, envOk], (h.1 rfl rfl).1 envOk, h.2.1.1⟩

/-! ### Claim C8 -/

/-- Claim C8: when both market data sources fail for an alert's symbol
(price unavailable), that alert is skipped for the cycle: the loop body
writes no log row, sends nothing and leaves the row unchanged, and the
cycle continues with the remaining alerts — nothing escapes it. -/
theorem unavailable_price_skips_alert (env : CycleEnv) (a : PriceAlert)
    (rest : List PriceAlert) (hp : env.priceOf a.symbol = none) :
    process_alert env a = .ok a [] []
    ∧ run_cycle env (a :: rest) =
        (a :: (run_cycle env rest).1, (run_cycle env rest).2.1, (run_cycle env rest).2.2) := by
  have hstep : process_alert env a = .ok a [] [] := by
    unfold process_alert
    rw [hp]
    split <;> rfl
  refine ⟨hstep, ?_⟩
  simp only [run_cycle, hstep]
  split <;> rfl

/-- Sample environment in which both price sources failed for every
symbol. -/
def envNoData : CycleEnv :=
  { priceOf := fun _ => none
    sendOutcome := fun _ => .exn "unreachable"
    faults := fun _ => false
    now := 9 }

theorem unavailable_price_skips_alert_witness :
    process_alert envNoData aaplAlert = .ok aaplAlert [] []
    ∧ run_cycle envNoData [aaplAlert, firedAlert] =
        (aaplAlert :: (run_cycle envNoData [firedAlert]).1,
          (run_cycle envNoData [firedAlert]).2.1,
          (run_cycle envNoData [firedAlert]).2.2) :=
  unavailable_price_skips_alert envNoData aaplAlert [firedAlert] rfl

/-! ### Claim C10 -/

/-- Claim C10: a one-time alert whose condition holds on an available
price is consumed by the poller regardless of the delivery outcome: the
loop body sets `is_triggered` and stamps `last_triggered_at`
unconditionally on the trigger path (the environment's gateway outcome is
arbitrary here, including failures), so a failed delivery still consumes
the alert. -/
theorem one_time_consumed_regardless_of_delivery (env : CycleEnv)
    (a : PriceAlert) (p : ℚ)
    (h1 : a.is_one_time = true) (h2 : a.is_triggered = false)
    (hp : env.priceOf a.symbol = some p)
    (hc : alert_triggered a.alert_type p a.target_price = true)
    (hf : env.faults a.id = false) :
    process_alert env a =
      .ok { a with is_triggered := true, last_triggered_at := some env.now }
        [price_log env a p] [price_message a p] := by
  have he := process_alert_eq env a p (by rw [h2, Bool.and_false]) hp
  rw [he, if_pos hc, hf]
  simp only [Bool.false_eq_true, if_false, fired_update, h1, if_true]

/-- Sample environment whose gateway delivery always fails. -/
def envSendFail : CycleEnv :=
  { priceOf := fun s => if s = "AAPL" then some 101 else none
    sendOutcome := fun _ => .exn "connection reset"
    faults := fun _ => false
    now := 12 }

theorem one_time_consumed_regardless_of_delivery_witness :
    process_alert envSendFail aaplAlert =
      .ok { aaplAlert with is_triggered := true, last_triggered_at := some 12 }
        [price_log envSendFail aaplAlert 101] [price_message aaplAlert 101]
    ∧ (price_log envSendFail aaplAlert 101).status = "failed" := by
  have h := one_time_consumed_regardless_of_delivery envSendFail aaplAlert 101
    rfl rfl rfl (by decide) rfl
  exact ⟨h, rfl⟩

/-! ### Claim C3 -/

/-- Webhook alert config that resolves but references an inactive
messaging target. -/
def cfgInactiveTarget : TradingViewAlert :=
  { id := 7
    name := "inactive-target"
    webhook_key := "kin"
    message_template := default_tv_template
    is_active := true
    tconfig := { id := 2, bot_token := "tok", chat_id := "chat", is_active := false } }

/-- Claim C3 counterexample: a webhook request that resolves its key but
whose Telegram configuration is inactive is rejected with HTTP 400 and
produces zero Notification Log rows — not exactly one. -/
theorem webhook_resolved_no_log_counterexample :
    find_alert_config [cfgInactiveTarget] "kin" = some cfgInactiveTarget
    ∧ (receive_alert [cfgInactiveTarget] (.response 200 "ok") "kin" []).2.1 = []
    ∧ (receive_alert [cfgInactiveTarget] (.response 200 "ok") "kin" []).1.httpStatus = 400 := by
  refine ⟨rfl, rfl, rfl⟩

/-- Claim C3 (amended): every dispatch that resolves a configuration and
proceeds to delivery — a webhook request that resolves its key and whose
messaging target is active, or a price alert that triggers in a poll
cycle whose per-alert write does not fault — produces exactly one
Notification Log row referencing that configuration, whose status is
"success" iff the gateway call returned success and "failed" otherwise. -/
theorem dispatch_logs_exactly_once
    (configs : List TradingViewAlert) (send : HttpOutcome String)
    (key : String) (payload : List (String × String)) (cfg : TradingViewAlert)
    (hfind : find_alert_config configs key = some cfg)
    (hactive : cfg.tconfig.is_active = true)
    (env : CycleEnv) (a : PriceAlert) (p : ℚ)
    (hskip : (a.is_one_time && a.is_triggered) = false)
    (hp : env.priceOf a.symbol = some p)
    (hc : alert_triggered a.alert_type p a.target_price = true)
    (hf : env.faults a.id = false) :
    (∃ log : NotificationLog,
        (receive_alert configs send key payload).2.1 = [log] ∧
        log.alert_id = some cfg.id ∧
        log.status = (if gateway_ok send then "success" else "failed"))
    ∧ (∃ log : NotificationLog,
        process_alert env a = .ok (fired_update env a) [log] [price_message a p] ∧
        log.price_alert_id = some a.id ∧
        log.status = (if gateway_ok (env.sendOutcome a.id) then "success" else "failed")) := by
  constructor
  · simp only [receive_alert, hfind, hactive, Bool.not_true, Bool.false_eq_true, if_false,
      send_success_eq_gateway_ok]
    split <;> exact ⟨_, rfl, rfl, rfl⟩
  · have he := process_alert_eq env a p hskip hp
    rw [if_pos hc, hf] at he
    simp only [Bool.false_eq_true, if_false] at he
    refine ⟨price_log env a p, he, rfl, ?_⟩
    simp only [price_log, send_success_eq_gateway_ok]

/-- Webhook alert config with an active messaging target. -/
def cfgActive : TradingViewAlert :=
  { id := 8
    name := "active"
    webhook_key := "kact"
    message_template := default_tv_template
    is_active := true
    tconfig := { id := 3, bot_token := "tok", chat_id := "chat", is_active := true } }

theorem dispatch_logs_exactly_once_witness :
    (∃ log : NotificationLog,
        (receive_alert [cfgActive] (.response 200 "ok") "kact" []).2.1 = [log] ∧
        log.alert_id = some cfgActive.id ∧
        log.status = (if gateway_ok (.response 200 "ok") then "success" else "failed"))
    ∧ (∃ log : NotificationLog,
        process_alert envOk aaplAlert = .ok (fired_update envOk aaplAlert)
          [log] [price_message aaplAlert 101] ∧
        log.price_alert_id = some aaplAlert.id ∧
        log.status = (if gateway_ok (envOk.sendOutcome aaplAlert.id) then "success" else "failed")) :=
  dispatch_logs_exactly_once [cfgActive] (.response 200 "ok") "kact" [] cfgActive
    rfl rfl envOk aaplAlert 101 rfl rfl (by decide) rfl

/-! ### Claim C4 -/

/-- Sample environment in which the per-alert write faults exactly at the
alert with id 1. -/
def envFault1 : CycleEnv :=
  { priceOf := fun _ => some 101
    sendOutcome := fun _ => .response 200 "ok"
    faults := fun i => i == 1
    now := 3 }

/-- Sample repeating SPX alert, id 1, whose condition holds at 101. -/
def spxAlert1 : PriceAlert :=
  { id := 1
    name := "spx-1"
    symbol := "SPX"
    alert_type := "above"
    target_price := 100
    message_template := "m1"
    is_active := true
    is_one_time := false
    is_triggered := false
    last_triggered_at := none
    bot_token := "tok"
    chat_id := "chat" }

/-- Same alert under id 2, not faulting. -/
def spxAlert2 : PriceAlert :=
  { spxAlert1 with id := 2, name := "spx-2" }

/-- Claim C4 counterexample: with a fault at the first alert's write, the
cycle over `[spxAlert1, spxAlert2]` writes no log row at all — in
particular none for the healthy second alert — although the same cycle
over `[spxAlert2]` alone writes its row: a single alert's fault aborts
the processing of the remaining alerts. -/
theorem cycle_fault_not_isolated_counterexample :
    (run_cycle envFault1 [spxAlert1, spxAlert2]).2.1 = []
    ∧ (run_cycle envFault1 [spxAlert2]).2.1 = [price_log envFault1 spxAlert2 101] := by
  constructor <;> rfl

/-- Claim C4 (amended): a fault raised while handling a single alert ends
the cycle early: the faulting alert's log and state update are lost and
every remaining alert is left unprocessed for that cycle; the fault is
caught by the cycle-level handler, so the cycle still returns (only the
already-sent message survives) rather than letting the exception
escape. -/
theorem cycle_fault_aborts_remaining (env : CycleEnv) (a : PriceAlert)
    (rest : List PriceAlert) (p : ℚ)
    (ha : a.is_active = true)
    (hskip : (a.is_one_time && a.is_triggered) = false)
    (hp : env.priceOf a.symbol = some p)
    (hc : alert_triggered a.alert_type p a.target_price = true)
    (hf : env.faults a.id = true) :
    run_cycle env (a :: rest) = (a :: rest, [], [price_message a p]) := by
  have he := process_alert_eq env a p hskip hp
  rw [if_pos hc, hf] at he
  simp only [if_true] at he
  simp only [run_cycle, he, ha, if_true]

theorem cycle_fault_aborts_remaining_witness :
    run_cycle envFault1 [spxAlert1, spxAlert2] =
      ([spxAlert1, spxAlert2], [], [price_message spxAlert1 101]) :=
  cycle_fault_aborts_remaining envFault1 spxAlert1 [spxAlert2] 101
    rfl rfl rfl (by decide) rfl

/-! ### Claim C6 -/

/-- The payload of the specification's webhook scenario. -/
def payloadC6 : List (String × String) :=
  [("ticker", "AAPL"), ("close", "150.2"), ("strategy", "breakout")]

/-- Webhook alert config carrying the default template, active target. -/
def cfgDefault : TradingViewAlert :=
  { id := 6
    name := "tv-default"
    webhook_key := "k6"
    message_template := default_tv_template
    is_active := true
    tconfig := { id := 5, bot_token := "tok", chat_id := "chat", is_active := true } }

/-- Claim C6 (code bug): the webhook renderer substitutes Python
`string.Template` dollar-placeholders, so the double-brace placeholders
of the claim — and of the model's own default template — are never
substituted: `render` on the claim's example returns the template
unchanged instead of "X \x7b\x7bb\x7d\x7d", and the scenario request
delivers the default template verbatim instead of
"TradingView Alert: breakout - AAPL - 150.2".  (Rendering indeed never
raises, but only because nothing is ever substituted for double-brace
placeholders.) -/
theorem webhook_render_no_substitution :
    safe_substitute "\x7b\x7ba\x7d\x7d \x7b\x7bb\x7d\x7d" [("a", "X")] =
      "\x7b\x7ba\x7d\x7d \x7b\x7bb\x7d\x7d"
    ∧ safe_substitute "\x7b\x7ba\x7d\x7d \x7b\x7bb\x7d\x7d" [("a", "X")] ≠
      "X \x7b\x7bb\x7d\x7d"
    ∧ (receive_alert [cfgDefault] (.response 200 "ok") "k6" payloadC6).2.1.map
        NotificationLog.message_sent = [default_tv_template]
    ∧ default_tv_template ≠ "TradingView Alert: breakout - AAPL - 150.2" := by
  refine ⟨rfl, by decide, rfl, by decide⟩

/-! ### Claim C9 -/

/-- Claim C9: after the regenerate action commits a new key (distinct
from the prior one — `generate_webhook_key` draws a fresh random key),
a webhook request bearing the prior key no longer resolves to any
configuration and receives the 404 not-found response with no log row;
the hypothesis `hold` is the table's uniqueness constraint on webhook
keys, specialized to the old key. -/
theorem regenerated_key_not_found (configs : List TradingViewAlert)
    (aid : Nat) (oldKey newKey : String)
    (send : HttpOutcome String) (payload : List (String × String))
    (hold : ∀ c ∈ configs, c.webhook_key = oldKey → c.id = aid)
    (hnew : newKey ≠ oldKey) :
    find_alert_config (regenerate_webhook configs aid newKey) oldKey = none
    ∧ receive_alert (regenerate_webhook configs aid newKey) send oldKey payload =
        ({ httpStatus := 404, status := "error" }, [], []) := by
  have hnone : find_alert_config (regenerate_webhook configs aid newKey) oldKey = none := by
    rw [find_alert_config, List.find?_eq_none]
    intro x hx
    rw [regenerate_webhook, List.mem_map] at hx
    obtain ⟨c, hc, rfl⟩ := hx
    by_cases hid : (c.id == aid) = true
    · rw [if_pos hid]
      simp only [Bool.and_eq_true, beq_iff_eq, not_and]
      intro hk
      exact absurd hk hnew
    · rw [if_neg hid]
      simp only [Bool.and_eq_true, beq_iff_eq, not_and]
      intro hk
      exact absurd (beq_iff_eq.mpr (hold c hc hk)) hid
  refine ⟨hnone, ?_⟩
  simp only [receive_alert, hnone]

/-- Webhook alert config about to have its key regenerated. -/
def cfgRegen : TradingViewAlert :=
  { id := 9
    name := "regen"
    webhook_key := "oldkey"
    message_template := "t"
    is_active := true
    tconfig := { id := 4, bot_token := "tok", chat_id := "chat", is_active := true } }

theorem regenerated_key_not_found_witness :
    find_alert_config (regenerate_webhook [cfgRegen] 9 "newkey") "oldkey" = none
    ∧ receive_alert (regenerate_webhook [cfgRegen] 9 "newkey")
        (.response 200 "ok") "oldkey" [] =
        ({ httpStatus := 404, status := "error" }, [], []) :=
  regenerated_key_not_found [cfgRegen] 9 "oldkey" "newkey" (.response 200 "ok") []
    (by
      intro c hc hk
      simp only [List.mem_singleton] at hc
      subst hc
      rfl)
    (by decide)

end AlertBot
